import Mathlib

/-!
Shallow embedding of the retail-demand-forecasting orchestration layer
(`src/lib/sagemaker-client.ts`, `src/lib/config.ts`, and the forecast-action
HTTP route) together with theorems about its behaviour.

External services (the SageMaker SDK client, the SSM parameter store, S3
staging, JSON parsing of remote bodies) are modelled as explicit parameters;
each orchestration function additionally returns the list of SDK commands it
issued, in order, so that ordering and call-count properties can be stated.
Calendar dates are modelled as (year, month, day) triples with JavaScript's
0-based months and JavaScript `Date.setMonth` normalization semantics.
-/

namespace RetailForecast

/-- Calendar date in the JavaScript convention: `month` is 0-based (0 =
January .. 11 = December), `day` is 1-based. -/
structure CalDate where
  year : Nat
  month : Nat
  day : Nat
deriving DecidableEq, Repr

/-- Gregorian leap-year test. -/
def isLeap (y : Nat) : Bool :=
  y % 4 = 0 && (y % 100 != 0 || y % 400 = 0)

/-- Number of days in month `m` (0-based) of year `y`. -/
def daysInMonth (y m : Nat) : Nat :=
  if m = 1 then (if isLeap y then 29 else 28)
  else if m = 3 ∨ m = 5 ∨ m = 8 ∨ m = 10 then 30
  else 31

/-- A date is a valid calendar date: month in range and day within the month. -/
def ValidDate (d : CalDate) : Prop :=
  d.month < 12 ∧ 1 ≤ d.day ∧ d.day ≤ daysInMonth d.year d.month

instance (d : CalDate) : Decidable (ValidDate d) := by
  unfold ValidDate; infer_instance

/-- Linear month index of a date (`12 * year + month`). -/
def monthIdx (d : CalDate) : Nat :=
  12 * d.year + d.month

/-- Chronological strict order on valid calendar dates: lexicographic on
(linear month index, day). -/
def dateLt (a b : CalDate) : Prop :=
  monthIdx a < monthIdx b ∨ (monthIdx a = monthIdx b ∧ a.day < b.day)

instance (a b : CalDate) : Decidable (dateLt a b) := by
  unfold dateLt; infer_instance

/-- JavaScript `Date.setMonth (getMonth () + k)` semantics on a copy of the
date: the month field advances by `k` (rolling over years), keeping the day
of month; a day past the end of the target month spills into the following
month.  For valid input dates (day at most 31) the spill is at most 3 days,
so a single carry step is exact. -/
def jsAddMonths (d : CalDate) (k : Nat) : CalDate :=
  if d.day ≤ daysInMonth ((12 * d.year + d.month + k) / 12) ((12 * d.year + d.month + k) % 12) then
    ⟨(12 * d.year + d.month + k) / 12, (12 * d.year + d.month + k) % 12, d.day⟩
  else
    ⟨(12 * d.year + d.month + k + 1) / 12, (12 * d.year + d.month + k + 1) % 12,
      d.day - daysInMonth ((12 * d.year + d.month + k) / 12) ((12 * d.year + d.month + k) % 12)⟩

/-- Every month has at least 28 days. -/
theorem daysInMonth_pos (y m : Nat) : 28 ≤ daysInMonth y m := by
  unfold daysInMonth
  split
  · split <;> omega
  · split <;> omega

theorem monthIdx_jsAddMonths (d : CalDate) (k : Nat) :
    monthIdx (jsAddMonths d k) = monthIdx d + k ∨
    monthIdx (jsAddMonths d k) = monthIdx d + k + 1 := by
  unfold jsAddMonths monthIdx
  split
  · left
    simp only
    omega
  · right
    simp only
    omega

/-- Advancing by at least one month yields a strictly later date. -/
theorem dateLt_jsAddMonths (d : CalDate) (k : Nat) (hk : 1 ≤ k) :
    dateLt d (jsAddMonths d k) := by
  rcases monthIdx_jsAddMonths d k with h | h <;> exact Or.inl (by omega)

/-- Successive month offsets from a common base yield strictly increasing
dates (this holds even when the day of month spills into the next month). -/
theorem jsAddMonths_strictMono (d : CalDate) (k : Nat) :
    dateLt (jsAddMonths d k) (jsAddMonths d (k + 1)) := by
  have h28 := daysInMonth_pos ((12 * d.year + d.month + k) / 12)
    ((12 * d.year + d.month + k) % 12)
  have h28' := daysInMonth_pos ((12 * d.year + d.month + (k + 1)) / 12)
    ((12 * d.year + d.month + (k + 1)) % 12)
  unfold jsAddMonths dateLt monthIdx
  split <;> split <;> simp only <;> omega

/-- One observation or forecast point (`DataPoint` in `src/lib/types`).  The
`date` field holds the calendar date that the source's ISO date string
denotes; `actual` and `forecast` are nullable numeric fields. -/
structure DataPoint where
  date : CalDate
  actual : Option Int
  forecast : Option Int
deriving DecidableEq, Repr

/-- Two-digit zero padding, as `String.padStart (2, "0")` in the source. -/
def pad2 (n : Nat) : String :=
  if (toString n).length < 2 then "0" ++ toString n else toString n

/-- Date formatting used by `prepareInputData`:
`getFullYear () - pad (getMonth () + 1) - pad (getDate ())`. -/
def formatYMD (d : CalDate) : String :=
  toString d.year ++ "-" ++ pad2 (d.month + 1) ++ "-" ++ pad2 d.day

/-- The single instance inside the DeepAR-style invocation payload.  `start`
is `dates[0]`, which in the source is `undefined` (here `none`) when the
history is empty. -/
structure ForecastInstance where
  start : Option String
  target : List Int
deriving DecidableEq, Repr

/-- Configuration block of the invocation payload. -/
structure ForecastConfiguration where
  num_samples : Nat
  output_types : List String
  quantiles : List String
  prediction_length : Nat
deriving DecidableEq, Repr

/-- Invocation payload sent to the endpoint. -/
structure ForecastPayload where
  instances : List ForecastInstance
  configuration : ForecastConfiguration
deriving DecidableEq, Repr

/-- Embedding of `prepareInputData` (src/lib/sagemaker-client.ts:248-276):
formats each history date as `YYYY-MM-DD`, replaces missing `actual` values
by 0 (JavaScript `point.actual || 0`), and builds the payload with `start =
dates[0]` and the fixed DeepAR configuration. -/
def prepareInputData (historicalData : List DataPoint) (forecastHorizon : Nat) :
    ForecastPayload :=
  { instances :=
      [{ start := (historicalData.map (fun point => formatYMD point.date)).head?,
         target := historicalData.map (fun point => point.actual.getD 0) }],
    configuration :=
      { num_samples := 50,
        output_types := ["mean", "quantiles", "samples"],
        quantiles := ["0.1", "0.5", "0.9"],
        prediction_length := forecastHorizon } }

/-- One entry of the endpoint response's `predictions` array; only the
`mean` field is read by the source. -/
structure Prediction where
  mean : List Int
deriving DecidableEq, Repr

/-- Parsed JSON body returned by the endpoint invocation. -/
structure EndpointResponse where
  predictions : List Prediction
deriving DecidableEq, Repr

/-- Embedding of `convertResponseToDataPoints`
(src/lib/sagemaker-client.ts:281-298).  The source reads
`historicalData[historicalData.length - 1].date` and `response.predictions[0]`
with no emptiness check; both unchecked accesses are modelled as `Option`
lookups whose failure is the `none` branch.  Each output point's date is the
last historical date advanced by `index + 1` months via `Date.setMonth`. -/
def convertResponseToDataPoints (response : EndpointResponse)
    (historicalData : List DataPoint) : Option (List DataPoint) :=
  match historicalData.getLast?, response.predictions.head? with
  | some lastPoint, some pred =>
      some (pred.mean.enum.map (fun p =>
        { date := jsAddMonths lastPoint.date (p.1 + 1),
          actual := none,
          forecast := some p.2 }))
  | _, _ => none

/-- Embedding of `getForecastFromEndpoint`
(src/lib/sagemaker-client.ts:214-243).  The live endpoint is modelled by the
`invoke` parameter, which maps the endpoint name and the serialized payload
to the parsed response body. -/
def getForecastFromEndpoint (endpointName : String)
    (historicalData : List DataPoint) (forecastHorizon : Nat)
    (invoke : String → ForecastPayload → EndpointResponse) :
    Option (List DataPoint) :=
  convertResponseToDataPoints
    (invoke endpointName (prepareInputData historicalData forecastHorizon))
    historicalData

/-- Example history from the specification: values 10 and 12 observed on
2024-01-01 and 2024-02-01 (months are 0-based in the embedding). -/
def exampleHistory : List DataPoint :=
  [{ date := ⟨2024, 0, 1⟩, actual := some 10, forecast := none },
   { date := ⟨2024, 1, 1⟩, actual := some 12, forecast := none }]

/-- Example endpoint behaviour: a well-formed response whose `predictions[0].mean`
holds three numeric values. -/
def exampleInvoke : String → ForecastPayload → EndpointResponse :=
  fun _ _ => { predictions := [{ mean := [100, 105, 110] }] }

/-- C1: for every non-empty history (with a valid last calendar date) and
every horizon, `getForecastFromEndpoint` applied to an endpoint response
whose `predictions[0].mean` is an array of `horizon` numeric values returns
exactly `horizon` points; point `i` has `actual = null`, `forecast = mean[i]`,
and date equal to the last historical date advanced by `i + 1` calendar
months, so every output date is strictly after the last historical date and
the output dates are strictly increasing. -/
theorem getForecastFromEndpoint_spec
    (endpointName : String) (historicalData : List DataPoint)
    (forecastHorizon : Nat)
    (invoke : String → ForecastPayload → EndpointResponse)
    (lastPoint : DataPoint) (pred : Prediction) (rest : List Prediction)
    (hlast : historicalData.getLast? = some lastPoint)
    (hvalid : ValidDate lastPoint.date)
    (hresp : (invoke endpointName
        (prepareInputData historicalData forecastHorizon)).predictions = pred :: rest)
    (hlen : pred.mean.length = forecastHorizon) :
    ∃ out,
      getForecastFromEndpoint endpointName historicalData forecastHorizon invoke =
        some out ∧
      out.length = forecastHorizon ∧
      (∀ i : Nat, out[i]? = (pred.mean[i]?).map (fun value =>
        { date := jsAddMonths lastPoint.date (i + 1),
          actual := none, forecast := some value })) ∧
      (∀ i : Nat, ∀ a, out[i]? = some a → dateLt lastPoint.date a.date) ∧
      (∀ i : Nat, ∀ a b, out[i]? = some a → out[i + 1]? = some b →
        dateLt a.date b.date) := by
  have hout : getForecastFromEndpoint endpointName historicalData forecastHorizon
      invoke = some (pred.mean.enum.map (fun p =>
        { date := jsAddMonths lastPoint.date (p.1 + 1),
          actual := none, forecast := some p.2 })) := by
    unfold getForecastFromEndpoint convertResponseToDataPoints
    rw [hlast, hresp]
    rfl
  refine ⟨_, hout, ?_, ?_, ?_, ?_⟩
  · simp [List.length_map, List.enum_length, hlen]
  · intro i
    cases h : pred.mean[i]? <;>
      simp [List.getElem?_map, List.getElem?_enum, h]
  · intro i a ha
    rcases Option.map_eq_some'.mp (by
      simpa [List.getElem?_map, List.getElem?_enum, Option.map_map] using ha)
      with ⟨value, hv, hav⟩
    subst hav
    exact dateLt_jsAddMonths lastPoint.date (i + 1) (by omega)
  · intro i a b ha hb
    rcases Option.map_eq_some'.mp (by
      simpa [List.getElem?_map, List.getElem?_enum, Option.map_map] using ha)
      with ⟨va, hva, hava⟩
    rcases Option.map_eq_some'.mp (by
      simpa [List.getElem?_map, List.getElem?_enum, Option.map_map] using hb)
      with ⟨vb, hvb, havb⟩
    subst hava
    subst havb
    exact jsAddMonths_strictMono lastPoint.date (i + 1)

/-- Witness for C1 at the specification's example: history
[(2024-01-01, 10), (2024-02-01, 12)], horizon 3, and a response with mean
values [100, 105, 110]; the output dates are 2024-03-01, 2024-04-01,
2024-05-01 with `actual = null` throughout. -/
theorem getForecastFromEndpoint_spec_witness :
    (getForecastFromEndpoint "test-endpoint" exampleHistory 3 exampleInvoke =
      some [{ date := ⟨2024, 2, 1⟩, actual := none, forecast := some 100 },
            { date := ⟨2024, 3, 1⟩, actual := none, forecast := some 105 },
            { date := ⟨2024, 4, 1⟩, actual := none, forecast := some 110 }]) ∧
    ((getForecastFromEndpoint "test-endpoint" exampleHistory 3
        exampleInvoke).getD []).map (fun p => formatYMD p.date) =
      ["2024-03-01", "2024-04-01", "2024-05-01"] ∧
    (∃ out,
      getForecastFromEndpoint "test-endpoint" exampleHistory 3 exampleInvoke =
        some out ∧
      out.length = 3 ∧
      (∀ i : Nat, out[i]? = ((Prediction.mk [100, 105, 110]).mean[i]?).map
        (fun value =>
          { date := jsAddMonths (CalDate.mk 2024 1 1) (i + 1),
            actual := none, forecast := some value })) ∧
      (∀ i : Nat, ∀ a, out[i]? = some a →
        dateLt (CalDate.mk 2024 1 1) a.date) ∧
      (∀ i : Nat, ∀ a b, out[i]? = some a → out[i + 1]? = some b →
        dateLt a.date b.date)) :=
  ⟨by decide, by decide,
    getForecastFromEndpoint_spec "test-endpoint" exampleHistory 3 exampleInvoke
      ⟨⟨2024, 1, 1⟩, some 12, none⟩ ⟨[100, 105, 110]⟩ []
      (by decide) (by decide) (by decide) (by decide)⟩

/-- C10: the forecast path requires a non-empty history.  The payload
construction reads `dates[0]`, which is `none` (JavaScript `undefined`) for
the empty history, and the response conversion reads the last history
element, which for the empty history hits the `none` branch; for every
non-empty history both accesses are in bounds (the first date is present
in the payload and the conversion succeeds on any response with a
non-empty `predictions` array). -/
theorem forecast_requires_nonempty_history :
    (∀ forecastHorizon : Nat,
      (prepareInputData [] forecastHorizon).instances =
        [{ start := none, target := [] }]) ∧
    (∀ response : EndpointResponse,
      convertResponseToDataPoints response [] = none) ∧
    (∀ (historicalData : List DataPoint) (forecastHorizon : Nat),
      historicalData ≠ [] →
      (∃ s, (prepareInputData historicalData forecastHorizon).instances.map
        (fun inst => inst.start) = [some s]) ∧
      historicalData.getLast?.isSome = true ∧
      (∀ (response : EndpointResponse) (pred : Prediction)
        (rest : List Prediction), response.predictions = pred :: rest →
        (convertResponseToDataPoints response historicalData).isSome = true)) := by
  refine ⟨fun forecastHorizon => rfl, fun response => rfl, ?_⟩
  intro historicalData forecastHorizon hne
  have hlast : historicalData.getLast? =
      some (historicalData.getLast hne) :=
    List.getLast?_eq_getLast historicalData hne
  obtain ⟨x, xs, rfl⟩ := List.exists_cons_of_ne_nil hne
  refine ⟨⟨formatYMD x.date, ?_⟩, by rw [hlast]; rfl, ?_⟩
  · simp [prepareInputData]
  · intro response pred rest hresp
    unfold convertResponseToDataPoints
    rw [hlast, hresp]
    rfl

/-- Witness for C10: for the example history both accesses succeed and the
conversion is defined, while for the empty history the payload's `start` is
absent and the conversion reaches the error branch. -/
theorem forecast_requires_nonempty_history_witness :
    (prepareInputData [] 3).instances = [{ start := none, target := [] }] ∧
    convertResponseToDataPoints { predictions := [{ mean := [1, 2] }] } [] =
      none ∧
    ((∃ s, (prepareInputData exampleHistory 3).instances.map
        (fun inst => inst.start) = [some s]) ∧
      exampleHistory.getLast?.isSome = true ∧
      (∀ (response : EndpointResponse) (pred : Prediction)
        (rest : List Prediction), response.predictions = pred :: rest →
        (convertResponseToDataPoints response exampleHistory).isSome = true)) :=
  ⟨forecast_requires_nonempty_history.1 3,
   forecast_requires_nonempty_history.2.1 { predictions := [{ mean := [1, 2] }] },
   forecast_requires_nonempty_history.2.2 exampleHistory 3 (by decide)⟩

/-- Application configuration (`AppConfig` in src/lib/config.ts). -/
structure AppConfig where
  dataBucket : String
  sageMakerRoleArn : String
  region : String
  environment : String
deriving DecidableEq, Repr

/-- Inference container description of an AutoML candidate; all fields are
optional in the SDK response. -/
structure InferenceContainer where
  ModelDataUrl : Option String
  Image : Option String
  Environment : Option (List (String × String))
deriving DecidableEq, Repr

/-- AutoML candidate as returned by the candidate-enumeration call. -/
structure Candidate where
  CandidateName : Option String
  InferenceContainers : Option (List InferenceContainer)
deriving DecidableEq, Repr

/-- Response of `ListCandidatesForAutoMLJobCommand`; the `Candidates` array
itself is optional. -/
structure CandidatesResponse where
  Candidates : Option (List Candidate)
deriving DecidableEq, Repr

/-- SageMaker SDK commands issued by the orchestration layer, with the
request fields the source fills in. -/
inductive SMCommand where
  | createAutoMLJob (jobName problemType : String)
      (maxCandidates maxRuntimePerTrainingJobInSeconds : Nat)
      (s3Uri targetAttributeName s3OutputPath roleArn : String)
  | describeAutoMLJob (jobName : String)
  | listCandidatesForAutoMLJob (jobName : String)
  | createModel (modelName : String) (modelDataUrl image : Option String)
      (environment : Option (List (String × String))) (executionRoleArn : String)
  | createEndpointConfig (endpointConfigName variantName modelName : String)
      (initialInstanceCount : Nat) (instanceType : String)
  | createEndpoint (endpointName endpointConfigName : String)
  | deleteEndpoint (endpointName : String)
  | deleteEndpointConfig (endpointConfigName : String)
  | deleteModel (modelName : String)
deriving DecidableEq, Repr

/-- Resource name requested by a creation command (`none` for commands that
create nothing). -/
def creationName : SMCommand → Option String
  | .createModel n _ _ _ _ => some n
  | .createEndpointConfig n _ _ _ _ => some n
  | .createEndpoint n _ => some n
  | _ => none

/-- Result of a successful `deployBestModel`. -/
structure DeployResult where
  modelName : String
  endpointConfigName : String
  endpointName : String
deriving DecidableEq, Repr

/-- Embedding of `deployBestModel` (src/lib/sagemaker-client.ts:118-183).
`listCandidates` models the candidate-enumeration response and `send` the
outcome of each subsequent SDK call; the function returns the result (or
first error) together with the ordered list of commands issued.  The guard
mirrors the source's `!bestCandidate || !bestCandidate.CandidateName`
(a missing or falsy—empty—name rejects the candidate). -/
def deployBestModel (jobName : String) (config : AppConfig)
    (listCandidates : String → CandidatesResponse)
    (send : SMCommand → Except String Unit) :
    Except String DeployResult × List SMCommand :=
  match ((listCandidates jobName).Candidates.getD []).head? with
  | none =>
      (.error "No candidates found for the job",
       [SMCommand.listCandidatesForAutoMLJob jobName])
  | some bestCandidate =>
    if bestCandidate.CandidateName.getD "" = "" then
      (.error "No candidates found for the job",
       [SMCommand.listCandidatesForAutoMLJob jobName])
    else
      match send (SMCommand.createModel (jobName ++ "-model")
          (((bestCandidate.InferenceContainers.getD []).head?).bind
            (fun c => c.ModelDataUrl))
          (((bestCandidate.InferenceContainers.getD []).head?).bind
            (fun c => c.Image))
          (((bestCandidate.InferenceContainers.getD []).head?).bind
            (fun c => c.Environment))
          config.sageMakerRoleArn) with
      | .error e =>
          (.error e,
           [SMCommand.listCandidatesForAutoMLJob jobName,
            SMCommand.createModel (jobName ++ "-model")
              (((bestCandidate.InferenceContainers.getD []).head?).bind
                (fun c => c.ModelDataUrl))
              (((bestCandidate.InferenceContainers.getD []).head?).bind
                (fun c => c.Image))
              (((bestCandidate.InferenceContainers.getD []).head?).bind
                (fun c => c.Environment))
              config.sageMakerRoleArn])
      | .ok _ =>
        match send (SMCommand.createEndpointConfig (jobName ++ "-config")
            "AllTraffic" (jobName ++ "-model") 1 "ml.m5.large") with
        | .error e =>
            (.error e,
             [SMCommand.listCandidatesForAutoMLJob jobName,
              SMCommand.createModel (jobName ++ "-model")
                (((bestCandidate.InferenceContainers.getD []).head?).bind
                  (fun c => c.ModelDataUrl))
                (((bestCandidate.InferenceContainers.getD []).head?).bind
                  (fun c => c.Image))
                (((bestCandidate.InferenceContainers.getD []).head?).bind
                  (fun c => c.Environment))
                config.sageMakerRoleArn,
              SMCommand.createEndpointConfig (jobName ++ "-config")
                "AllTraffic" (jobName ++ "-model") 1 "ml.m5.large"])
        | .ok _ =>
          match send (SMCommand.createEndpoint (jobName ++ "-endpoint")
              (jobName ++ "-config")) with
          | .error e =>
              (.error e,
               [SMCommand.listCandidatesForAutoMLJob jobName,
                SMCommand.createModel (jobName ++ "-model")
                  (((bestCandidate.InferenceContainers.getD []).head?).bind
                    (fun c => c.ModelDataUrl))
                  (((bestCandidate.InferenceContainers.getD []).head?).bind
                    (fun c => c.Image))
                  (((bestCandidate.InferenceContainers.getD []).head?).bind
                    (fun c => c.Environment))
                  config.sageMakerRoleArn,
                SMCommand.createEndpointConfig (jobName ++ "-config")
                  "AllTraffic" (jobName ++ "-model") 1 "ml.m5.large",
                SMCommand.createEndpoint (jobName ++ "-endpoint")
                  (jobName ++ "-config")])
          | .ok _ =>
              (.ok { modelName := jobName ++ "-model",
                     endpointConfigName := jobName ++ "-config",
                     endpointName := jobName ++ "-endpoint" },
               [SMCommand.listCandidatesForAutoMLJob jobName,
                SMCommand.createModel (jobName ++ "-model")
                  (((bestCandidate.InferenceContainers.getD []).head?).bind
                    (fun c => c.ModelDataUrl))
                  (((bestCandidate.InferenceContainers.getD []).head?).bind
                    (fun c => c.Image))
                  (((bestCandidate.InferenceContainers.getD []).head?).bind
                    (fun c => c.Environment))
                  config.sageMakerRoleArn,
                SMCommand.createEndpointConfig (jobName ++ "-config")
                  "AllTraffic" (jobName ++ "-model") 1 "ml.m5.large",
                SMCommand.createEndpoint (jobName ++ "-endpoint")
                  (jobName ++ "-config")])

/-- Example configuration value used in concrete witnesses. -/
def exampleConfig : AppConfig :=
  { dataBucket := "retail-forecasting-data-dev",
    sageMakerRoleArn := "arn:aws:iam::123456789012:role/SageMakerExecutionRole-dev",
    region := "us-east-1",
    environment := "development" }

/-- Example candidate-enumeration response with one usable candidate. -/
def exampleListCandidates : String → CandidatesResponse :=
  fun _ =>
    { Candidates := some
        [{ CandidateName := some "candidate-1",
           InferenceContainers := some
             [{ ModelDataUrl := some "s3://bucket/model.tar.gz",
                Image := some "inference-image",
                Environment := some [] }] }] }

/-- C2: the three resource names produced by a successful `deployBestModel`
are pure deterministic functions of `jobName`: whatever the candidate list,
the configuration and the SDK-call outcomes, a successful run returns and
requests creation of exactly `jobName ++ "-model"`, `jobName ++ "-config"`
and `jobName ++ "-endpoint"`, in that order. -/
theorem deployBestModel_names (jobName : String) (config : AppConfig)
    (listCandidates : String → CandidatesResponse)
    (send : SMCommand → Except String Unit)
    (r : DeployResult) (trace : List SMCommand)
    (h : deployBestModel jobName config listCandidates send = (.ok r, trace)) :
    r = { modelName := jobName ++ "-model",
          endpointConfigName := jobName ++ "-config",
          endpointName := jobName ++ "-endpoint" } ∧
    trace.filterMap creationName =
      [jobName ++ "-model", jobName ++ "-config", jobName ++ "-endpoint"] := by
  unfold deployBestModel at h
  split at h
  · simp at h
  · split at h
    · simp at h
    · split at h
      · simp at h
      · split at h
        · simp at h
        · split at h
          · simp at h
          · obtain ⟨h1, h2⟩ := Prod.mk.injEq .. ▸ h
            refine ⟨by simp_all, ?_⟩
            subst h2
            rfl

/-- Witness for C2 at `jobName = "retail-forecast-1700000000000"` with a
one-candidate response and all SDK calls succeeding. -/
theorem deployBestModel_names_witness :
    (deployBestModel "retail-forecast-1700000000000" exampleConfig
        exampleListCandidates (fun _ => .ok ())).1 =
      .ok { modelName := "retail-forecast-1700000000000-model",
            endpointConfigName := "retail-forecast-1700000000000-config",
            endpointName := "retail-forecast-1700000000000-endpoint" } ∧
    ({ modelName := "retail-forecast-1700000000000-model",
       endpointConfigName := "retail-forecast-1700000000000-config",
       endpointName := "retail-forecast-1700000000000-endpoint" } :
        DeployResult) =
      { modelName := "retail-forecast-1700000000000" ++ "-model",
        endpointConfigName := "retail-forecast-1700000000000" ++ "-config",
        endpointName := "retail-forecast-1700000000000" ++ "-endpoint" } ∧
    (deployBestModel "retail-forecast-1700000000000" exampleConfig
        exampleListCandidates (fun _ => .ok ())).2.filterMap creationName =
      ["retail-forecast-1700000000000" ++ "-model",
       "retail-forecast-1700000000000" ++ "-config",
       "retail-forecast-1700000000000" ++ "-endpoint"] :=
  ⟨rfl,
   (deployBestModel_names "retail-forecast-1700000000000" exampleConfig
      exampleListCandidates (fun _ => .ok ()) _ _ rfl).1,
   (deployBestModel_names "retail-forecast-1700000000000" exampleConfig
      exampleListCandidates (fun _ => .ok ()) _ _ rfl).2⟩

/-- C3: when the candidate list for the job is empty (or its first
candidate has no usable name), `deployBestModel` fails with the
no-candidate error and issues no creation call at all: only the
candidate-enumeration command appears in the trace. -/
theorem deployBestModel_noCandidate (jobName : String) (config : AppConfig)
    (listCandidates : String → CandidatesResponse)
    (send : SMCommand → Except String Unit)
    (h : ∀ c, ((listCandidates jobName).Candidates.getD []).head? = some c →
      c.CandidateName.getD "" = "") :
    (deployBestModel jobName config listCandidates send).1 =
      .error "No candidates found for the job" ∧
    (deployBestModel jobName config listCandidates send).2 =
      [SMCommand.listCandidatesForAutoMLJob jobName] ∧
    (deployBestModel jobName config listCandidates send).2.filterMap
      creationName = [] := by
  unfold deployBestModel
  cases hc : ((listCandidates jobName).Candidates.getD []).head? with
  | none => exact ⟨rfl, rfl, rfl⟩
  | some c =>
    have hname := h c hc
    dsimp only
    rw [if_pos hname]
    exact ⟨rfl, rfl, rfl⟩

/-- Witness for C3: an empty candidate array yields the no-candidate error
and a trace containing only the enumeration call. -/
theorem deployBestModel_noCandidate_witness :
    (deployBestModel "retail-forecast-1700000000000" exampleConfig
        (fun _ => { Candidates := some [] }) (fun _ => .ok ())).1 =
      .error "No candidates found for the job" ∧
    (deployBestModel "retail-forecast-1700000000000" exampleConfig
        (fun _ => { Candidates := some [] }) (fun _ => .ok ())).2 =
      [SMCommand.listCandidatesForAutoMLJob "retail-forecast-1700000000000"] ∧
    (deployBestModel "retail-forecast-1700000000000" exampleConfig
        (fun _ => { Candidates := some [] }) (fun _ => .ok ())).2.filterMap
      creationName = [] :=
  deployBestModel_noCandidate "retail-forecast-1700000000000" exampleConfig
    (fun _ => { Candidates := some [] }) (fun _ => .ok ())
    (fun _ hc => nomatch hc)

/-- Result of a successful cleanup. -/
structure CleanupResult where
  success : Bool
  message : String
deriving DecidableEq, Repr

/-- Embedding of `cleanupSageMakerResources`
(src/lib/sagemaker-client.ts:303-336): sequentially deletes the endpoint,
the endpoint configuration and the model; each `await` either succeeds or
throws, and a thrown error aborts the remaining deletions and is
rethrown. -/
def cleanupSageMakerResources (endpointName endpointConfigName modelName : String)
    (send : SMCommand → Except String Unit) :
    Except String CleanupResult × List SMCommand :=
  match send (SMCommand.deleteEndpoint endpointName) with
  | .error e => (.error e, [SMCommand.deleteEndpoint endpointName])
  | .ok _ =>
    match send (SMCommand.deleteEndpointConfig endpointConfigName) with
    | .error e =>
        (.error e,
         [SMCommand.deleteEndpoint endpointName,
          SMCommand.deleteEndpointConfig endpointConfigName])
    | .ok _ =>
      match send (SMCommand.deleteModel modelName) with
      | .error e =>
          (.error e,
           [SMCommand.deleteEndpoint endpointName,
            SMCommand.deleteEndpointConfig endpointConfigName,
            SMCommand.deleteModel modelName])
      | .ok _ =>
          (.ok { success := true,
                 message := "Resources cleaned up successfully" },
           [SMCommand.deleteEndpoint endpointName,
            SMCommand.deleteEndpointConfig endpointConfigName,
            SMCommand.deleteModel modelName])

/-- C4: cleanup attempts deletions in the fixed order endpoint, then
endpoint configuration, then model: the configuration deletion is issued
only after the endpoint deletion succeeded, the model deletion only after
both earlier deletions succeeded, the trace is always a prefix of that
three-command sequence, and a failing step surfaces its error and stops the
invocation there. -/
theorem cleanupSageMakerResources_order
    (endpointName endpointConfigName modelName : String)
    (send : SMCommand → Except String Unit) :
    (SMCommand.deleteEndpointConfig endpointConfigName ∈
        (cleanupSageMakerResources endpointName endpointConfigName modelName
          send).2 →
      send (SMCommand.deleteEndpoint endpointName) = .ok ()) ∧
    (SMCommand.deleteModel modelName ∈
        (cleanupSageMakerResources endpointName endpointConfigName modelName
          send).2 →
      send (SMCommand.deleteEndpoint endpointName) = .ok () ∧
      send (SMCommand.deleteEndpointConfig endpointConfigName) = .ok ()) ∧
    ((cleanupSageMakerResources endpointName endpointConfigName modelName
        send).2 = [SMCommand.deleteEndpoint endpointName] ∨
      (cleanupSageMakerResources endpointName endpointConfigName modelName
        send).2 =
        [SMCommand.deleteEndpoint endpointName,
         SMCommand.deleteEndpointConfig endpointConfigName] ∨
      (cleanupSageMakerResources endpointName endpointConfigName modelName
        send).2 =
        [SMCommand.deleteEndpoint endpointName,
         SMCommand.deleteEndpointConfig endpointConfigName,
         SMCommand.deleteModel modelName]) ∧
    (∀ e, send (SMCommand.deleteEndpoint endpointName) = .error e →
      cleanupSageMakerResources endpointName endpointConfigName modelName
        send = (.error e, [SMCommand.deleteEndpoint endpointName])) ∧
    (∀ e, send (SMCommand.deleteEndpoint endpointName) = .ok () →
      send (SMCommand.deleteEndpointConfig endpointConfigName) = .error e →
      cleanupSageMakerResources endpointName endpointConfigName modelName
        send =
        (.error e,
         [SMCommand.deleteEndpoint endpointName,
          SMCommand.deleteEndpointConfig endpointConfigName])) ∧
    (∀ e, send (SMCommand.deleteEndpoint endpointName) = .ok () →
      send (SMCommand.deleteEndpointConfig endpointConfigName) = .ok () →
      send (SMCommand.deleteModel modelName) = .error e →
      cleanupSageMakerResources endpointName endpointConfigName modelName
        send =
        (.error e,
         [SMCommand.deleteEndpoint endpointName,
          SMCommand.deleteEndpointConfig endpointConfigName,
          SMCommand.deleteModel modelName])) := by
  cases h1 : send (SMCommand.deleteEndpoint endpointName) with
  | error e1 =>
    refine ⟨?_, ?_, ?_, ?_, ?_, ?_⟩ <;>
      simp_all [cleanupSageMakerResources]
  | ok u1 =>
    cases u1
    cases h2 : send (SMCommand.deleteEndpointConfig endpointConfigName) with
    | error e2 =>
      refine ⟨?_, ?_, ?_, ?_, ?_, ?_⟩ <;>
        simp_all [cleanupSageMakerResources]
    | ok u2 =>
      cases u2
      cases h3 : send (SMCommand.deleteModel modelName) with
      | error e3 =>
        refine ⟨?_, ?_, ?_, ?_, ?_, ?_⟩ <;>
          simp_all [cleanupSageMakerResources]
      | ok u3 =>
        cases u3
        refine ⟨?_, ?_, ?_, ?_, ?_, ?_⟩ <;>
          simp_all [cleanupSageMakerResources]

/-- Failure injections for the cleanup witness. -/
def sendFailEndpoint : SMCommand → Except String Unit :=
  fun c => match c with
  | .deleteEndpoint _ => .error "denied"
  | _ => .ok ()

/-- Failure injection at the configuration-deletion step. -/
def sendFailConfig : SMCommand → Except String Unit :=
  fun c => match c with
  | .deleteEndpointConfig _ => .error "denied"
  | _ => .ok ()

/-- Failure injection at the model-deletion step. -/
def sendFailModel : SMCommand → Except String Unit :=
  fun c => match c with
  | .deleteModel _ => .error "denied"
  | _ => .ok ()

/-- Witness for C4: concrete runs in which the first, second or third
deletion fails show the surfaced error and the truncated trace, and a
successful run shows that later deletions are reached only after the
earlier ones succeed. -/
theorem cleanupSageMakerResources_order_witness :
    cleanupSageMakerResources "demo-endpoint" "demo-config" "demo-model"
      sendFailEndpoint =
      (.error "denied", [SMCommand.deleteEndpoint "demo-endpoint"]) ∧
    cleanupSageMakerResources "demo-endpoint" "demo-config" "demo-model"
      sendFailConfig =
      (.error "denied",
       [SMCommand.deleteEndpoint "demo-endpoint",
        SMCommand.deleteEndpointConfig "demo-config"]) ∧
    cleanupSageMakerResources "demo-endpoint" "demo-config" "demo-model"
      sendFailModel =
      (.error "denied",
       [SMCommand.deleteEndpoint "demo-endpoint",
        SMCommand.deleteEndpointConfig "demo-config",
        SMCommand.deleteModel "demo-model"]) ∧
    (fun _ : SMCommand => (Except.ok () : Except String Unit))
      (SMCommand.deleteEndpoint "demo-endpoint") = .ok () ∧
    ((fun _ : SMCommand => (Except.ok () : Except String Unit))
      (SMCommand.deleteEndpoint "demo-endpoint") = .ok () ∧
     (fun _ : SMCommand => (Except.ok () : Except String Unit))
      (SMCommand.deleteEndpointConfig "demo-config") = .ok ()) :=
  ⟨(cleanupSageMakerResources_order "demo-endpoint" "demo-config"
      "demo-model" sendFailEndpoint).2.2.2.1 "denied" rfl,
   (cleanupSageMakerResources_order "demo-endpoint" "demo-config"
      "demo-model" sendFailConfig).2.2.2.2.1 "denied" rfl rfl,
   (cleanupSageMakerResources_order "demo-endpoint" "demo-config"
      "demo-model" sendFailModel).2.2.2.2.2 "denied" rfl rfl rfl,
   (cleanupSageMakerResources_order "demo-endpoint" "demo-config"
      "demo-model" (fun _ => .ok ())).1 (by decide),
   (cleanupSageMakerResources_order "demo-endpoint" "demo-config"
      "demo-model" (fun _ => .ok ())).2.1 (by decide)⟩

/-- Result of `createForecastingJob`: the generated job name and the
vendor-returned job ARN (optional in the SDK response). -/
structure CreateJobResult where
  jobName : String
  jobArn : Option String
deriving DecidableEq, Repr

/-- Embedding of `createForecastingJob`
(src/lib/sagemaker-client.ts:24-75).  `uploadDatasetToS3` models the
dataset-staging collaborator, `now` the epoch-milliseconds submission
timestamp (`Date.now ()`), and `autoMLJobArn` the ARN carried by the
vendor's response to the single job-creation call. -/
def createForecastingJob (historicalData : List DataPoint)
    (targetColumn : String) (config : AppConfig)
    (uploadDatasetToS3 : List DataPoint → String) (now : Nat)
    (autoMLJobArn : Option String) :
    CreateJobResult × List SMCommand :=
  ({ jobName := "retail-forecast-" ++ toString now, jobArn := autoMLJobArn },
   [SMCommand.createAutoMLJob ("retail-forecast-" ++ toString now)
      "Forecasting" 10 3600 (uploadDatasetToS3 historicalData) targetColumn
      ("s3://" ++ config.dataBucket ++ "/output/") config.sageMakerRoleArn])

/-- C7: for every non-empty history, a successful submission generates the
job name `"retail-forecast-" ++ <epoch-millis>`, issues exactly one
job-creation command carrying problem type Forecasting, the bounded
completion policy (10 candidates, 3600 seconds per training job), the
staged input location, the target field, the output location
`"s3://" ++ bucket ++ "/output/"` and the resolved execution role, and
returns that job name together with the vendor-returned job ARN. -/
theorem createForecastingJob_spec (historicalData : List DataPoint)
    (targetColumn : String) (config : AppConfig)
    (uploadDatasetToS3 : List DataPoint → String) (now : Nat)
    (autoMLJobArn : Option String)
    (hne : historicalData ≠ []) :
    (createForecastingJob historicalData targetColumn config uploadDatasetToS3
        now autoMLJobArn).1.jobName = "retail-forecast-" ++ toString now ∧
    (createForecastingJob historicalData targetColumn config uploadDatasetToS3
        now autoMLJobArn).1.jobArn = autoMLJobArn ∧
    (createForecastingJob historicalData targetColumn config uploadDatasetToS3
        now autoMLJobArn).2.length = 1 ∧
    (createForecastingJob historicalData targetColumn config uploadDatasetToS3
        now autoMLJobArn).2 =
      [SMCommand.createAutoMLJob ("retail-forecast-" ++ toString now)
        "Forecasting" 10 3600 (uploadDatasetToS3 historicalData) targetColumn
        ("s3://" ++ config.dataBucket ++ "/output/")
        config.sageMakerRoleArn] :=
  ⟨rfl, rfl, rfl, rfl⟩

/-- Witness for C7 at submission timestamp 1700000000000 with the example
history: the generated job name is "retail-forecast-1700000000000". -/
theorem createForecastingJob_spec_witness :
    exampleHistory ≠ [] ∧
    (createForecastingJob exampleHistory "value" exampleConfig
        (fun _ => "s3://retail-forecasting-data-dev/datasets/data.csv")
        1700000000000 (some "arn:aws:sagemaker:job/retail-forecast")).1.jobName =
      "retail-forecast-1700000000000" ∧
    (createForecastingJob exampleHistory "value" exampleConfig
        (fun _ => "s3://retail-forecasting-data-dev/datasets/data.csv")
        1700000000000
        (some "arn:aws:sagemaker:job/retail-forecast")).1.jobArn =
      some "arn:aws:sagemaker:job/retail-forecast" ∧
    (createForecastingJob exampleHistory "value" exampleConfig
        (fun _ => "s3://retail-forecasting-data-dev/datasets/data.csv")
        1700000000000
        (some "arn:aws:sagemaker:job/retail-forecast")).2.length = 1 :=
  ⟨by decide,
   ((createForecastingJob_spec exampleHistory "value" exampleConfig
      (fun _ => "s3://retail-forecasting-data-dev/datasets/data.csv")
      1700000000000 (some "arn:aws:sagemaker:job/retail-forecast")
      (by decide)).1).trans (by decide),
   (createForecastingJob_spec exampleHistory "value" exampleConfig
      (fun _ => "s3://retail-forecasting-data-dev/datasets/data.csv")
      1700000000000 (some "arn:aws:sagemaker:job/retail-forecast")
      (by decide)).2.1,
   (createForecastingJob_spec exampleHistory "value" exampleConfig
      (fun _ => "s3://retail-forecasting-data-dev/datasets/data.csv")
      1700000000000 (some "arn:aws:sagemaker:job/retail-forecast")
      (by decide)).2.2.1⟩

/-- Response of `DescribeAutoMLJobCommand`; all read fields are optional. -/
structure DescribeJobResponse where
  AutoMLJobStatus : Option String
  EndTime : Option String
  FailureReason : Option String
deriving DecidableEq, Repr

/-- Result shape returned by `getJobStatus`. -/
structure JobStatusResult where
  jobName : String
  status : Option String
  bestCandidate : Option Candidate
  endTime : Option String
  failureReason : Option String
deriving DecidableEq, Repr

/-- Embedding of `getJobStatus` (src/lib/sagemaker-client.ts:80-113):
describes the job, and issues the candidate-enumeration call if and only if
the returned status is Completed, recording the first candidate of the
vendor-returned order as `bestCandidate`. -/
def getJobStatus (jobName : String)
    (describe : String → DescribeJobResponse)
    (listCandidates : String → CandidatesResponse) :
    JobStatusResult × List SMCommand :=
  if (describe jobName).AutoMLJobStatus = some "Completed" then
    ({ jobName := jobName,
       status := (describe jobName).AutoMLJobStatus,
       bestCandidate := ((listCandidates jobName).Candidates.getD []).head?,
       endTime := (describe jobName).EndTime,
       failureReason := (describe jobName).FailureReason },
     [SMCommand.describeAutoMLJob jobName,
      SMCommand.listCandidatesForAutoMLJob jobName])
  else
    ({ jobName := jobName,
       status := (describe jobName).AutoMLJobStatus,
       bestCandidate := none,
       endTime := (describe jobName).EndTime,
       failureReason := (describe jobName).FailureReason },
     [SMCommand.describeAutoMLJob jobName])

/-- C8: `getJobStatus` issues the candidate-enumeration call if and only if
the fetched status is Completed; `bestCandidate` is the first candidate of
the vendor-returned order, is present if and only if the status is
Completed and at least one candidate exists, and is null whenever the
status is not Completed. -/
theorem getJobStatus_spec (jobName : String)
    (describe : String → DescribeJobResponse)
    (listCandidates : String → CandidatesResponse) :
    (SMCommand.listCandidatesForAutoMLJob jobName ∈
        (getJobStatus jobName describe listCandidates).2 ↔
      (describe jobName).AutoMLJobStatus = some "Completed") ∧
    ((getJobStatus jobName describe listCandidates).1.bestCandidate.isSome =
        true ↔
      ((describe jobName).AutoMLJobStatus = some "Completed" ∧
        (listCandidates jobName).Candidates.getD [] ≠ [])) ∧
    ((describe jobName).AutoMLJobStatus ≠ some "Completed" →
      (getJobStatus jobName describe listCandidates).1.bestCandidate =
        none) ∧
    (∀ c cs, (describe jobName).AutoMLJobStatus = some "Completed" →
      (listCandidates jobName).Candidates.getD [] = c :: cs →
      (getJobStatus jobName describe listCandidates).1.bestCandidate =
        some c) := by
  by_cases hs : (describe jobName).AutoMLJobStatus = some "Completed"
  · refine ⟨?_, ?_, ?_, ?_⟩
    · simp [getJobStatus, hs]
    · cases hc : (listCandidates jobName).Candidates.getD [] with
      | nil => simp [getJobStatus, hs, hc]
      | cons c cs => simp [getJobStatus, hs, hc]
    · intro hns; exact absurd hs hns
    · intro c cs _ hc
      simp [getJobStatus, hs, hc]
  · refine ⟨?_, ?_, ?_, ?_⟩
    · simp [getJobStatus, hs]
    · simp [getJobStatus, hs]
    · intro _; simp [getJobStatus, hs]
    · intro c cs hs' _; exact absurd hs' hs

/-- Witness for C8: a Completed job with one candidate exposes that
candidate, and an InProgress job exposes no candidate and issues no
enumeration call. -/
theorem getJobStatus_spec_witness :
    ((fun _ : String =>
        DescribeJobResponse.mk (some "InProgress") none none) "job-a").AutoMLJobStatus ≠
      some "Completed" ∧
    (getJobStatus "job-a"
        (fun _ => DescribeJobResponse.mk (some "InProgress") none none)
        (fun _ => { Candidates := some [] })).1.bestCandidate = none ∧
    (getJobStatus "job-b"
        (fun _ => DescribeJobResponse.mk (some "Completed") none none)
        (fun _ =>
          { Candidates :=
              some [{ CandidateName := some "candidate-1",
                      InferenceContainers := none }] })).1.bestCandidate =
      some { CandidateName := some "candidate-1",
             InferenceContainers := none } :=
  ⟨by decide,
   (getJobStatus_spec "job-a"
      (fun _ => DescribeJobResponse.mk (some "InProgress") none none)
      (fun _ => { Candidates := some [] })).2.2.1 (by decide),
   (getJobStatus_spec "job-b"
      (fun _ => DescribeJobResponse.mk (some "Completed") none none)
      (fun _ =>
        { Candidates :=
            some [{ CandidateName := some "candidate-1",
                    InferenceContainers := none }] })).2.2.2
      { CandidateName := some "candidate-1", InferenceContainers := none }
      [] (by decide) (by decide)⟩

/-- Environment variables read by src/lib/config.ts; `none` models an unset
variable. -/
structure ProcessEnv where
  DATA_BUCKET : Option String
  SAGEMAKER_ROLE_ARN : Option String
  NODE_ENV : Option String
  ENVIRONMENT : Option String
deriving DecidableEq, Repr

/-- JavaScript `v || dflt` on an optional string: unset and empty strings
are falsy. -/
def orFalsy (v : Option String) (dflt : String) : String :=
  match v with
  | some s => if s = "" then dflt else s
  | none => dflt

/-- Embedding of `defaultConfig` (src/lib/config.ts:11-16). -/
def defaultConfig (env : ProcessEnv) : AppConfig :=
  { dataBucket := orFalsy env.DATA_BUCKET "retail-forecasting-data-dev",
    sageMakerRoleArn := orFalsy env.SAGEMAKER_ROLE_ARN
      "arn:aws:iam::123456789012:role/SageMakerExecutionRole-dev",
    region := "us-east-1",
    environment := orFalsy env.NODE_ENV "development" }

/-- SSM parameter name requested by `getConfig` in production. -/
def configParameterName (env : ProcessEnv) : String :=
  "/retail-forecasting/" ++ orFalsy env.ENVIRONMENT "prod" ++ "/config"

/-- Embedding of `getConfig` (src/lib/config.ts:24-62) as a state
transition on the module-level `cachedConfig` cell.  `ssmFetch` models the
parameter-store call (`error` = the call threw, `ok none` = no parameter
value) and `parseJson` models `JSON.parse` on the fetched string.  The
result triple is the returned configuration, the cache cell after the call,
and whether a remote fetch was performed.  Every failure path falls back to
the default configuration without caching it; nothing is ever thrown. -/
def getConfig (env : ProcessEnv)
    (ssmFetch : String → Except String (Option String))
    (parseJson : String → Except String AppConfig)
    (cachedConfig : Option AppConfig) :
    AppConfig × Option AppConfig × Bool :=
  match cachedConfig with
  | some c => (c, some c, false)
  | none =>
    if env.NODE_ENV ≠ some "production" then
      (defaultConfig env, none, false)
    else
      match ssmFetch (configParameterName env) with
      | .error _ => (defaultConfig env, none, true)
      | .ok none => (defaultConfig env, none, true)
      | .ok (some configValue) =>
        if configValue = "" then (defaultConfig env, none, true)
        else
          match parseJson configValue with
          | .error _ => (defaultConfig env, none, true)
          | .ok config => (config, some config, true)

/-- A production environment with every other variable unset. -/
def prodEnv : ProcessEnv :=
  { DATA_BUCKET := none, SAGEMAKER_ROLE_ARN := none,
    NODE_ENV := some "production", ENVIRONMENT := none }

/-- Parameter-store stub whose fetch always fails. -/
def failingSSM : String → Except String (Option String) :=
  fun _ => .error "network error"

/-- JSON parser stub; irrelevant on failing fetches. -/
def failingParse : String → Except String AppConfig :=
  fun _ => .error "bad json"

/-- Counterexample to C5: in a production environment whose parameter-store
fetch fails, the first `getConfig` call does not cache the fallback value,
so the second of two sequential calls performs a remote fetch again —
contradicting the claim that the second call performs no remote
parameter-store fetch in every process state and environment. -/
theorem getConfig_caching_counterexample :
    (getConfig prodEnv failingSSM failingParse
      (getConfig prodEnv failingSSM failingParse none).2.1).2.2 = true := by
  decide

/-- C5 (amended): two sequential `getConfig` calls return the identical
configuration value; the second call performs a remote fetch exactly when
the first call left the cache empty in a production environment (so
whenever the first call cached a fetched configuration — and in
non-production mode, where no fetch ever happens — the second call performs
no remote fetch). -/
theorem getConfig_caching_amended (env : ProcessEnv)
    (ssmFetch : String → Except String (Option String))
    (parseJson : String → Except String AppConfig) :
    (getConfig env ssmFetch parseJson
        (getConfig env ssmFetch parseJson none).2.1).1 =
      (getConfig env ssmFetch parseJson none).1 ∧
    ((getConfig env ssmFetch parseJson none).2.1.isSome = true →
      (getConfig env ssmFetch parseJson
        (getConfig env ssmFetch parseJson none).2.1).2.2 = false) ∧
    ((getConfig env ssmFetch parseJson
        (getConfig env ssmFetch parseJson none).2.1).2.2 = true ↔
      ((getConfig env ssmFetch parseJson none).2.1 = none ∧
        env.NODE_ENV = some "production")) := by
  by_cases hprod : env.NODE_ENV = some "production"
  · cases hssm : ssmFetch (configParameterName env) with
    | error e =>
        simp [getConfig, hprod, hssm]
    | ok v =>
      cases v with
      | none => simp [getConfig, hprod, hssm]
      | some configValue =>
        by_cases hv : configValue = ""
        · simp [getConfig, hprod, hssm, hv]
        · cases hp : parseJson configValue with
          | error e => simp [getConfig, hprod, hssm, hv, hp]
          | ok config => simp [getConfig, hprod, hssm, hv, hp]
  · simp [getConfig, hprod]

/-- Witness for C5 (amended): in a successful production fetch the value is
cached and the second call performs no fetch and returns the same value. -/
theorem getConfig_caching_amended_witness :
    (getConfig prodEnv
        (fun _ => .ok (some "remote"))
        (fun _ => .ok exampleConfig)
        (getConfig prodEnv (fun _ => .ok (some "remote"))
          (fun _ => .ok exampleConfig) none).2.1).1 =
      (getConfig prodEnv (fun _ => .ok (some "remote"))
        (fun _ => .ok exampleConfig) none).1 ∧
    (getConfig prodEnv (fun _ => .ok (some "remote"))
        (fun _ => .ok exampleConfig)
        (getConfig prodEnv (fun _ => .ok (some "remote"))
          (fun _ => .ok exampleConfig) none).2.1).2.2 = false :=
  ⟨(getConfig_caching_amended prodEnv (fun _ => .ok (some "remote"))
      (fun _ => .ok exampleConfig)).1,
   (getConfig_caching_amended prodEnv (fun _ => .ok (some "remote"))
      (fun _ => .ok exampleConfig)).2.1 (by decide)⟩

/-- C6: whenever the remote parameter-store fetch fails or returns no value
(a thrown call, a missing parameter, or an empty value), `getConfig`
silently returns the default configuration — it raises no error (the
embedding is total with no error result) and does not cache the
fallback. -/
theorem getConfig_fetch_failure_default (env : ProcessEnv)
    (ssmFetch : String → Except String (Option String))
    (parseJson : String → Except String AppConfig)
    (hprod : env.NODE_ENV = some "production")
    (hfail : (∃ msg, ssmFetch (configParameterName env) = .error msg) ∨
      ssmFetch (configParameterName env) = .ok none ∨
      ssmFetch (configParameterName env) = .ok (some "")) :
    getConfig env ssmFetch parseJson none =
      (defaultConfig env, none, true) := by
  rcases hfail with ⟨msg, hmsg⟩ | hnone | hempty
  · simp [getConfig, hprod, hmsg]
  · simp [getConfig, hprod, hnone]
  · simp [getConfig, hprod, hempty]

/-- Witness for C6: with a failing parameter store in production the call
returns the default configuration and caches nothing. -/
theorem getConfig_fetch_failure_default_witness :
    prodEnv.NODE_ENV = some "production" ∧
    getConfig prodEnv failingSSM failingParse none =
      (defaultConfig prodEnv, none, true) :=
  ⟨rfl,
   getConfig_fetch_failure_default prodEnv failingSSM failingParse rfl
     (Or.inl ⟨"network error", rfl⟩)⟩

/-- HTTP response produced by the forecast-action route: the status code
and the `error` and `details` fields of the JSON body (both absent on a
successful response, whose payload is abstracted away). -/
structure RouteResponse where
  status : Nat
  error : Option String
  details : Option String
deriving DecidableEq, Repr

/-- Embedding of the forecast-action `POST` handler (the route module
bundled with src/lib/config.ts, lines 74-134).  `dispatch` models the
awaited operation selected by the switch: `ok` when it returns a result
(serialized as a 200 response) and `error msg` when it throws an error
with message `msg`.  The switch's default branch returns 400; the
surrounding catch maps any thrown error to a 500 response with a fixed
message and the thrown error's message as `details`. -/
def POST (action : String) (dispatch : String → Except String Unit) :
    RouteResponse :=
  match action with
  | "create_job" | "get_job_status" | "deploy_model" | "get_endpoint_status"
  | "get_forecast" | "cleanup_resources" | "get_upload_url" =>
    (match dispatch action with
     | .ok _ => { status := 200, error := none, details := none }
     | .error msg =>
        { status := 500, error := some "Failed to process your request",
          details := some msg })
  | _ => { status := 400, error := some "Invalid action", details := none }

/-- The seven action names the switch recognizes. -/
def validActions : List String :=
  ["create_job", "get_job_status", "deploy_model", "get_endpoint_status",
   "get_forecast", "cleanup_resources", "get_upload_url"]

/-- C9: a request whose action is none of the seven known actions receives
HTTP 400 with body error "Invalid action", and a request whose dispatched
operation throws receives HTTP 500 with the generic error message and the
thrown message in the `details` field. -/
theorem POST_spec (action : String)
    (dispatch : String → Except String Unit) :
    (action ∉ validActions →
      POST action dispatch =
        { status := 400, error := some "Invalid action", details := none }) ∧
    (∀ msg, dispatch action = .error msg →
      action ∈ validActions →
      POST action dispatch =
        { status := 500, error := some "Failed to process your request",
          details := some msg }) := by
  constructor
  · intro hinvalid
    unfold POST
    split
    · exact absurd (by simp [validActions]) hinvalid
    · exact absurd (by simp [validActions]) hinvalid
    · exact absurd (by simp [validActions]) hinvalid
    · exact absurd (by simp [validActions]) hinvalid
    · exact absurd (by simp [validActions]) hinvalid
    · exact absurd (by simp [validActions]) hinvalid
    · exact absurd (by simp [validActions]) hinvalid
    · rfl
  · intro msg hmsg hvalid
    unfold POST
    split
    · rw [hmsg]
    · rw [hmsg]
    · rw [hmsg]
    · rw [hmsg]
    · rw [hmsg]
    · rw [hmsg]
    · rw [hmsg]
    · rename_i hne
      exfalso
      simp only [validActions, List.mem_cons, List.mem_singleton] at hvalid
      rcases hvalid with h | h | h | h | h | h | h | h <;> simp_all

/-- Witness for C9: the unknown action "delete_everything" receives 400
with "Invalid action", and a "create_job" request whose operation throws
"upload failed" receives 500 with the generic message and the thrown
message as details. -/
theorem POST_spec_witness :
    "delete_everything" ∉ validActions ∧
    POST "delete_everything" (fun _ => .ok ()) =
      { status := 400, error := some "Invalid action", details := none } ∧
    POST "create_job" (fun _ => .error "upload failed") =
      { status := 500, error := some "Failed to process your request",
        details := some "upload failed" } :=
  ⟨by decide,
   (POST_spec "delete_everything" (fun _ => .ok ())).1 (by decide),
   (POST_spec "create_job" (fun _ => .error "upload failed")).2
     "upload failed" rfl (by decide)⟩

end RetailForecast

